import Mathlib

/-
Verification development for the certificate-renewal lambda
(src/lambda/lambda.py).  The module is shallowly embedded: the AWS stores
(ACM inventory, SSM parameter store) become explicit state in a `World`
structure, boto3 calls become lookups in that state, Python exceptions
become `Except` errors, and `datetime.date` subtraction becomes the
proleptic Gregorian ordinal difference (the same formula CPython uses).
-/

/-! ## Python string primitives -/

/-- Embeds `str.lower()` (the strings involved are ASCII). -/
def pyLower (s : String) : String :=
  String.mk (s.data.map Char.toLower)

/-- Does `hay` start with `needle` (on character lists)? -/
def charsStartWith : List Char → List Char → Bool
  | [], _ => true
  | _ :: _, [] => false
  | n :: ns, h :: hs => n == h && charsStartWith ns hs

/-- Embeds the Python substring test `needle in hay`. -/
def charsContain (needle : List Char) : List Char → Bool
  | [] => charsStartWith needle []
  | h :: hs => charsStartWith needle (h :: hs) || charsContain needle hs

/-- Embeds Python set equality `set(a) == set(b)` on string lists. -/
def listSetEq (a b : List String) : Bool :=
  a.all (fun x => b.contains x) && b.all (fun x => a.contains x)

/-- Python truthiness of an optional string: `None` and the empty string
are falsy, every other string is truthy (`if not private_key`). -/
def pyTruthyOpt : Option String → Bool
  | none => false
  | some s => s != ""

/-- Split a character list at a separator character (groups between
separators, in order). -/
def splitChars (sep : Char) : List Char → List (List Char)
  | [] => [[]]
  | c :: cs =>
    let r := splitChars sep cs
    if c == sep then [] :: r
    else
      match r with
      | [] => [[c]]
      | g :: gs => (c :: g) :: gs

/-- Embeds Python `s.split(sep)` for a one-character separator. -/
def pySplitChar (s : String) (sep : Char) : List String :=
  (splitChars sep s.data).map String.mk

/-! ## Dates

`datetime.date` subtraction returns the difference of proleptic Gregorian
ordinals; `dateOrd` is CPython `_ymd2ord`. -/

structure PyDate where
  year : Nat
  month : Nat
  day : Nat
  deriving Repr, DecidableEq

/-- A `datetime.datetime` value as far as the code observes it: the code
only ever reads `year`, `month` and `day` of `NotAfter`, so the time of
day is carried but ignored. -/
structure PyDateTime where
  year : Nat
  month : Nat
  day : Nat
  hour : Nat
  minute : Nat
  deriving Repr, DecidableEq

def isLeapYear (y : Nat) : Bool :=
  (y % 4 == 0 && y % 100 != 0) || y % 400 == 0

def daysInMonth (y m : Nat) : Nat :=
  if m = 2 then (if isLeapYear y then 29 else 28)
  else if m = 4 ∨ m = 6 ∨ m = 9 ∨ m = 11 then 30
  else 31

def daysBeforeMonth (y m : Nat) : Nat :=
  (List.range (m - 1)).foldl (fun a k => a + daysInMonth y (k + 1)) 0

/-- Proleptic Gregorian ordinal of a date (day 1 is 0001-01-01), the
quantity whose difference `datetime.date.__sub__` reports in days. -/
def dateOrd (d : PyDate) : Nat :=
  let n := d.year - 1
  n * 365 + n / 4 - n / 100 + n / 400 + daysBeforeMonth d.year d.month + d.day

/-- The `datetime.date(y, m, d)` built from a datetime, dropping the time
of day, as in `get_days_remaining`. -/
def dateOf (dt : PyDateTime) : PyDate :=
  { year := dt.year, month := dt.month, day := dt.day }

/-! ## Data model -/

/-- The module configuration read from environment variables at import
time (DOMAINS, EMAIL_ADDRESS, FUNCTION_NAME, STAGING). -/
structure Config where
  domains : List String
  email : String
  functionName : String
  staging : Bool
  deriving Repr, DecidableEq

/-- `SUBJECT = DOMAINS[0]` (the configuration always carries at least one
domain; `headD` supplies a dummy for the empty case Python would reject
at import time). -/
def subjectOf (cfg : Config) : String :=
  cfg.domains.headD ""

/-- One certificate of the ACM inventory, merging what
`list_certificates` reports in the summary (`DomainName`,
`CertificateArn`) with what `describe_certificate` returns
(`ImportedAt`, `SubjectAlternativeNames`, `Issuer`, `NotAfter`).
`importedAt` is `none` for certificates ACM issued itself, which is the
only falsy value a datetime field can have. -/
structure CertInfo where
  arn : String
  domainName : String
  importedAt : Option Nat
  subjectAlternativeNames : List String
  issuer : String
  notAfter : PyDateTime
  deriving Repr, DecidableEq

/-- The `Certificate` namedtuple of the module. -/
structure Certificate where
  Certificate : String
  CertificateArn : String
  CertificateChain : String
  NotAfter : PyDateTime
  PrivateKey : String
  deriving Repr, DecidableEq

/-- The three PEM files certbot leaves behind (`cert.pem`,
`fullchain.pem`, `privkey.pem`), keyed the way `provision_cert` returns
them. -/
structure CertData where
  Certificate : String
  CertificateChain : String
  PrivateKey : String
  deriving Repr, DecidableEq

/-- The four-field dictionary `lambda_handler` returns (expiry is not
part of the payload). -/
structure HandlerOutput where
  Certificate : String
  CertificateArn : String
  CertificateChain : String
  PrivateKey : String
  deriving Repr, DecidableEq

/-- Errors raised by the SSM client: the one exception `get_private_key`
catches, and every other client failure. -/
inductive SsmErr where
  | parameterNotFound : SsmErr
  | serviceError : String → SsmErr
  deriving Repr, DecidableEq

/-- Unhandled Python exceptions the embedding tracks. -/
inductive PyErr where
  | nameError : String → PyErr
  | ssmFailure : String → PyErr
  | acmFailure : String → PyErr
  deriving Repr, DecidableEq

/-- The external state one invocation runs against: the ACM inventory
(already restricted to status ISSUED, pages flattened), the PEM bodies
`get_certificate` serves per arn, the SSM parameters, a set of parameter
names whose retrieval fails with a non-NotFound client error (injected
store faults), the current date, what certbot would produce if it ran,
and the inventory record ACM would create for an imported certificate. -/
structure World where
  issuedCerts : List CertInfo
  certBodies : List (String × String × String)
  ssmParams : List (String × String)
  ssmErrors : List String
  today : PyDate
  acmeOutput : CertData
  newCertInfo : CertInfo
  deriving Repr, DecidableEq

/-! ## Operations of the module -/

/-- `get_ssm_param_name`: derive the SSM parameter name from the arn
(`cert_id = cert_arn.split('/')[-1]`). -/
def get_ssm_param_name (cfg : Config) (cert_arn : String) : String :=
  let cert_id := (pySplitChar cert_arn '/').getLastD ""
  "/" ++ cfg.functionName ++ "/" ++ cert_id ++ "/PrivateKey"

/-- `ssm.get_parameter`: a fault-injected name raises a client error,
a missing name raises ParameterNotFound, otherwise the value comes back. -/
def ssm_get_parameter (w : World) (name : String) : Except SsmErr String :=
  if name ∈ w.ssmErrors then .error (.serviceError name)
  else
    match w.ssmParams.lookup name with
    | some v => .ok v
    | none => .error .parameterNotFound

/-- `get_private_key`: catches only ParameterNotFound (returning `None`);
any other store error propagates to the caller. -/
def get_private_key (cfg : Config) (w : World) (cert_arn : String) :
    Except PyErr (Option String) :=
  match ssm_get_parameter w (get_ssm_param_name cfg cert_arn) with
  | .ok v => .ok (some v)
  | .error .parameterNotFound => .ok none
  | .error (.serviceError s) => .error (.ssmFailure s)

/-- The staging test of `find_latest_cert`:
`cert_staging = 'fake' in cert_info['Issuer'].lower()`. -/
def certStaging (issuer : String) : Bool :=
  charsContain "fake".data (pyLower issuer).data

/-- Import timestamp used by the `ImportedAt` comparison (defined for
every candidate that passed the `ImportedAt` truthiness check). -/
def tsOf (ci : CertInfo) : Nat :=
  ci.importedAt.getD 0

/-- The `Exclude older certificates` guard: with a current latest
candidate, skip any candidate imported at or before it. -/
def isOlder (acc : Option (CertInfo × String)) (ci : CertInfo) : Bool :=
  match acc with
  | none => false
  | some p => decide (tsOf ci ≤ tsOf p.1)

/-- The candidate loop of `find_latest_cert`: walks the listed
certificates in order, carrying `(latest_cert_info, latest_private_key)`
as the accumulator, applying the guards in source order and stopping with
an error if an SSM lookup fails with anything but ParameterNotFound. -/
def selectCandidate (cfg : Config) (w : World) :
    List CertInfo → Option (CertInfo × String) →
    Except PyErr (Option (CertInfo × String))
  | [], acc => .ok acc
  | ci :: rest, acc =>
    if ci.domainName ≠ subjectOf cfg then
      selectCandidate cfg w rest acc
    else if ci.importedAt = none then
      selectCandidate cfg w rest acc
    else if isOlder acc ci then
      selectCandidate cfg w rest acc
    else if ¬ listSetEq ci.subjectAlternativeNames cfg.domains then
      selectCandidate cfg w rest acc
    else if certStaging ci.issuer ≠ cfg.staging then
      selectCandidate cfg w rest acc
    else
      match get_private_key cfg w ci.arn with
      | .error e => .error e
      | .ok k? =>
        if pyTruthyOpt k? then
          selectCandidate cfg w rest (some (ci, k?.getD ""))
        else
          selectCandidate cfg w rest acc

/-- `acm.get_certificate`: serves the PEM body and chain for an arn, or
fails as the client would for an unknown arn. -/
def acm_get_certificate (w : World) (arn : String) :
    Except PyErr (String × String) :=
  match w.certBodies.lookup arn with
  | some p => .ok p
  | none => .error (.acmFailure arn)

/-- `find_latest_cert`: run the candidate loop; with no winner return
`None`, otherwise fetch the body and chain and assemble the
`Certificate` namedtuple. -/
def find_latest_cert (cfg : Config) (w : World) :
    Except PyErr (Option Certificate) :=
  match selectCandidate cfg w w.issuedCerts none with
  | .error e => .error e
  | .ok none => .ok none
  | .ok (some (ci, key)) =>
    match acm_get_certificate w ci.arn with
    | .error e => .error e
    | .ok (cert, chain) =>
      .ok (some { Certificate := cert, CertificateArn := ci.arn,
                  CertificateChain := chain, NotAfter := ci.notAfter,
                  PrivateKey := key })

/-- `get_days_remaining`: build a date from the year, month and day of
`NotAfter` (dropping the time of day) and subtract the current date,
in whole days. -/
def get_days_remaining (cert : Certificate) (today : PyDate) : Int :=
  (dateOrd (dateOf cert.NotAfter) : Int) - (dateOrd today : Int)

/-- Names bound at the top level of the module: the seven imports and the
module-level assignments and function definitions.  The name `certbot`
is referenced by `provision_cert` but appears nowhere here. -/
def moduleTopLevelNames : List String :=
  ["boto3", "collections", "datetime", "json", "os", "subprocess",
   "tempfile", "DOMAINS", "SUBJECT", "EMAIL_ADDRESS", "FUNCTION_NAME",
   "STAGING", "Certificate", "acm", "ssm", "find_latest_cert",
   "get_days_remaining", "get_private_key", "get_ssm_param_name",
   "import_cert", "log", "provision_cert", "lambda_handler"]

/-- The argument list `provision_cert` builds for certbot (paths replaced
by their tail components under the temporary directory). -/
def certbot_args (cfg : Config) : List String :=
  ["certonly", "--noninteractive", "--agree-tos",
   "--email", cfg.email, "--dns-route53",
   "--domains", String.intercalate "," cfg.domains,
   "--config-dir", "lets-encrypt/config",
   "--work-dir", "lets-encrypt/work",
   "--logs-dir", "lets-encrypt/logs"]
  ++ (if cfg.staging then ["--staging"] else [])

/-- `provision_cert`: after building the argument list the code evaluates
`certbot.main.main(certbot_args)`; evaluating the global name `certbot`
consults the module bindings, and an unbound name raises `NameError`.
Were the name bound, the call would leave the three PEM files that the
function then reads and returns. -/
def provision_cert (cfg : Config) (w : World) : Except PyErr CertData :=
  let _args := certbot_args cfg
  if "certbot" ∈ moduleTopLevelNames then .ok w.acmeOutput
  else .error (.nameError "certbot")

/-- `ssm.put_parameter` with `Overwrite=True`: replace any previous value
stored under the name. -/
def ssm_put (w : World) (name value : String) : World :=
  { w with ssmParams := (name, value) :: w.ssmParams.filter (fun p => p.1 ≠ name) }

/-- `import_cert`: import into ACM (the store assigns the arn and parses
the metadata, both given by `w.newCertInfo`), store the private key in
SSM under the derived name, re-read `NotAfter` from the store, and
assemble the namedtuple. -/
def import_cert (cfg : Config) (w : World) (cert_data : CertData) :
    Certificate × World :=
  let cert_arn := w.newCertInfo.arn
  let w1 := { w with issuedCerts := w.issuedCerts ++ [w.newCertInfo],
                     certBodies := (cert_arn,
                       (cert_data.Certificate, cert_data.CertificateChain))
                       :: w.certBodies }
  let w2 := ssm_put w1 (get_ssm_param_name cfg cert_arn) cert_data.PrivateKey
  let not_after := w.newCertInfo.notAfter
  ({ Certificate := cert_data.Certificate, CertificateArn := cert_arn,
     CertificateChain := cert_data.CertificateChain, NotAfter := not_after,
     PrivateKey := cert_data.PrivateKey }, w2)

/-- The dictionary `lambda_handler` builds from a namedtuple. -/
def handlerOutput (c : Certificate) : HandlerOutput :=
  { Certificate := c.Certificate, CertificateArn := c.CertificateArn,
    CertificateChain := c.CertificateChain, PrivateKey := c.PrivateKey }

/-- The renewal path of `lambda_handler`:
`cert_data = provision_cert(); cert = import_cert(cert_data)`,
then the dictionary is built from the new certificate. -/
def run_executor (cfg : Config) (w : World) :
    Except PyErr (HandlerOutput × World) :=
  match provision_cert cfg w with
  | .error e => .error e
  | .ok cert_data =>
    let cw := import_cert cfg w cert_data
    .ok (handlerOutput cw.1, cw.2)

/-- `lambda_handler`: locate the latest certificate; if there is none or
it has at most 30 days remaining, renew; otherwise answer with the
located certificate and touch nothing. -/
def lambda_handler (cfg : Config) (w : World) :
    Except PyErr (HandlerOutput × World) :=
  match find_latest_cert cfg w with
  | .error e => .error e
  | .ok none => run_executor cfg w
  | .ok (some cert) =>
    if get_days_remaining cert w.today ≤ 30 then run_executor cfg w
    else .ok (handlerOutput cert, w)

/-- Full eligibility of a stored certificate, the conjunction of the five
filters of `find_latest_cert` other than the recency comparison. -/
def Eligible (cfg : Config) (w : World) (ci : CertInfo) : Prop :=
  ci.domainName = subjectOf cfg ∧
  ci.importedAt ≠ none ∧
  listSetEq ci.subjectAlternativeNames cfg.domains = true ∧
  certStaging ci.issuer = cfg.staging ∧
  ∃ k, get_private_key cfg w ci.arn = .ok (some k) ∧ k ≠ ""

/-! ## Concrete instances used to exercise the theorems -/

def cfgA : Config :=
  { domains := ["example.com", "www.example.com"],
    email := "ops@example.com", functionName := "lets-encrypt",
    staging := false }

def dummyCertData : CertData :=
  { Certificate := "NEWPEM", CertificateChain := "NEWCHAIN",
    PrivateKey := "NEWKEY" }

def certInfoA1 : CertInfo :=
  { arn := "arn:aws:acm::1:certificate/a1", domainName := "example.com",
    importedAt := some 100,
    subjectAlternativeNames := ["www.example.com", "example.com"],
    issuer := "CN=R3,O=Lets Encrypt,C=US",
    notAfter := { year := 2027, month := 1, day := 15, hour := 12, minute := 30 } }

def certInfoA2 : CertInfo :=
  { arn := "arn:aws:acm::1:certificate/a2", domainName := "example.com",
    importedAt := some 200,
    subjectAlternativeNames := ["example.com", "www.example.com"],
    issuer := "CN=R3,O=Lets Encrypt,C=US",
    notAfter := { year := 2026, month := 12, day := 1, hour := 3, minute := 0 } }

/-- A stored certificate covering a strict superset of the managed
domains: ineligible despite being imported, newest, and keyed. -/
def certInfoBad : CertInfo :=
  { arn := "arn:aws:acm::1:certificate/bad", domainName := "example.com",
    importedAt := some 900,
    subjectAlternativeNames := ["example.com", "www.example.com", "extra.example.com"],
    issuer := "CN=R3,O=Lets Encrypt,C=US",
    notAfter := { year := 2030, month := 6, day := 1, hour := 0, minute := 0 } }

def newCertInfoA : CertInfo :=
  { arn := "arn:aws:acm::1:certificate/new", domainName := "example.com",
    importedAt := some 1000,
    subjectAlternativeNames := ["example.com", "www.example.com"],
    issuer := "CN=R3,O=Lets Encrypt,C=US",
    notAfter := { year := 2027, month := 3, day := 1, hour := 0, minute := 0 } }

/-- World with one eligible certificate expiring far in the future. -/
def worldA : World :=
  { issuedCerts := [certInfoA1],
    certBodies := [("arn:aws:acm::1:certificate/a1", ("PEM1", "CHAIN1"))],
    ssmParams := [("/lets-encrypt/a1/PrivateKey", "KEY1")],
    ssmErrors := [],
    today := { year := 2026, month := 10, day := 12 },
    acmeOutput := dummyCertData,
    newCertInfo := newCertInfoA }

/-- The record `find_latest_cert` assembles in `worldA`. -/
def certRecA : Certificate :=
  { Certificate := "PEM1", CertificateArn := "arn:aws:acm::1:certificate/a1",
    CertificateChain := "CHAIN1", NotAfter := certInfoA1.notAfter,
    PrivateKey := "KEY1" }

/-- World with two eligible certificates (timestamps 100 and 200) and one
mismatched-domain certificate with the newest timestamp. -/
def worldB : World :=
  { issuedCerts := [certInfoA1, certInfoBad, certInfoA2],
    certBodies := [("arn:aws:acm::1:certificate/a1", ("PEM1", "CHAIN1")),
                   ("arn:aws:acm::1:certificate/a2", ("PEM2", "CHAIN2"))],
    ssmParams := [("/lets-encrypt/a1/PrivateKey", "KEY1"),
                  ("/lets-encrypt/a2/PrivateKey", "KEY2"),
                  ("/lets-encrypt/bad/PrivateKey", "KEYBAD")],
    ssmErrors := [],
    today := { year := 2026, month := 10, day := 12 },
    acmeOutput := dummyCertData,
    newCertInfo := newCertInfoA }

/-- World with no certificates at all. -/
def worldEmpty : World :=
  { issuedCerts := [], certBodies := [], ssmParams := [], ssmErrors := [],
    today := { year := 2026, month := 10, day := 12 },
    acmeOutput := dummyCertData,
    newCertInfo := newCertInfoA }

/-- World in which the SSM lookup for the stored certificate fails with a
client error other than ParameterNotFound. -/
def worldErr : World :=
  { issuedCerts := [certInfoA1],
    certBodies := [("arn:aws:acm::1:certificate/a1", ("PEM1", "CHAIN1"))],
    ssmParams := [],
    ssmErrors := ["/lets-encrypt/a1/PrivateKey"],
    today := { year := 2026, month := 10, day := 12 },
    acmeOutput := dummyCertData,
    newCertInfo := newCertInfoA }

/-- World whose stored certificate has an empty-string private key in
SSM. -/
def worldEmptyKey : World :=
  { issuedCerts := [certInfoA1],
    certBodies := [("arn:aws:acm::1:certificate/a1", ("PEM1", "CHAIN1"))],
    ssmParams := [("/lets-encrypt/a1/PrivateKey", "")],
    ssmErrors := [],
    today := { year := 2026, month := 10, day := 12 },
    acmeOutput := dummyCertData,
    newCertInfo := newCertInfoA }

/-- World whose stored certificate has no private key in SSM at all. -/
def worldNoKey : World :=
  { issuedCerts := [certInfoA1],
    certBodies := [("arn:aws:acm::1:certificate/a1", ("PEM1", "CHAIN1"))],
    ssmParams := [],
    ssmErrors := [],
    today := { year := 2026, month := 10, day := 12 },
    acmeOutput := dummyCertData,
    newCertInfo := newCertInfoA }

/-- Staging-mode configuration over the same domains. -/
def cfgS : Config :=
  { domains := ["example.com", "www.example.com"],
    email := "ops@example.com", functionName := "lets-encrypt",
    staging := true }

/-- A staging-authority certificate (issuer carries the marker). -/
def certInfoFake : CertInfo :=
  { arn := "arn:aws:acm::1:certificate/fk", domainName := "example.com",
    importedAt := some 300,
    subjectAlternativeNames := ["example.com", "www.example.com"],
    issuer := "CN=Fake LE Intermediate X1",
    notAfter := { year := 2027, month := 2, day := 1, hour := 0, minute := 0 } }

/-- A production-authority certificate, otherwise fully eligible. -/
def certInfoProd : CertInfo :=
  { arn := "arn:aws:acm::1:certificate/pr", domainName := "example.com",
    importedAt := some 400,
    subjectAlternativeNames := ["example.com", "www.example.com"],
    issuer := "CN=R3,O=Lets Encrypt,C=US",
    notAfter := { year := 2027, month := 2, day := 1, hour := 0, minute := 0 } }

/-- Staging-mode world holding one staging and one production
certificate, both keyed. -/
def worldS : World :=
  { issuedCerts := [certInfoFake, certInfoProd],
    certBodies := [("arn:aws:acm::1:certificate/fk", ("PEMF", "CHAINF")),
                   ("arn:aws:acm::1:certificate/pr", ("PEMP", "CHAINP"))],
    ssmParams := [("/lets-encrypt/fk/PrivateKey", "KEYF"),
                  ("/lets-encrypt/pr/PrivateKey", "KEYP")],
    ssmErrors := [],
    today := { year := 2026, month := 10, day := 12 },
    acmeOutput := dummyCertData,
    newCertInfo := newCertInfoA }

/-- The fixed current date of the expiry-arithmetic examples. -/
def dateT : PyDate := { year := 2026, month := 10, day := 12 }

/-- Certificate expiring 31 calendar days after `dateT`. -/
def certRec31 : Certificate :=
  { Certificate := "P", CertificateArn := "a", CertificateChain := "C",
    NotAfter := { year := 2026, month := 11, day := 12, hour := 23, minute := 59 },
    PrivateKey := "K" }

/-- Certificate expiring 30 calendar days after `dateT`. -/
def certRec30 : Certificate :=
  { Certificate := "P", CertificateArn := "a", CertificateChain := "C",
    NotAfter := { year := 2026, month := 11, day := 11, hour := 0, minute := 1 },
    PrivateKey := "K" }

/-- Certificate that expired the day before `dateT`. -/
def certRecPast : Certificate :=
  { Certificate := "P", CertificateArn := "a", CertificateChain := "C",
    NotAfter := { year := 2026, month := 10, day := 11, hour := 12, minute := 0 },
    PrivateKey := "K" }

/-! ## Invariants of the candidate loop -/

lemma pyTruthyOpt_true {k? : Option String} (h : pyTruthyOpt k? = true) :
    ∃ k, k? = some k ∧ k ≠ "" := by
  cases k? with
  | none => simp [pyTruthyOpt] at h
  | some s =>
    refine ⟨s, rfl, ?_⟩
    simpa [pyTruthyOpt] using h

lemma isOlder_true {acc : Option (CertInfo × String)} {ci : CertInfo}
    (h : isOlder acc ci = true) :
    ∃ p, acc = some p ∧ tsOf ci ≤ tsOf p.1 := by
  cases acc with
  | none => simp [isOlder] at h
  | some p =>
    refine ⟨p, rfl, ?_⟩
    simpa [isOlder] using h

/-- One step of the candidate loop does one of three things: it skips the
head (and a skipped head that is eligible was skipped by the recency
guard), it adopts the head together with its retrieved key, or it aborts
with a store error. -/
lemma selectCandidate_step (cfg : Config) (w : World) (ci : CertInfo)
    (rest : List CertInfo) (acc : Option (CertInfo × String)) :
    (selectCandidate cfg w (ci :: rest) acc = selectCandidate cfg w rest acc ∧
      (Eligible cfg w ci → isOlder acc ci = true)) ∨
    (∃ k, isOlder acc ci = false ∧ Eligible cfg w ci ∧
      selectCandidate cfg w (ci :: rest) acc =
        selectCandidate cfg w rest (some (ci, k)) ∧
      get_private_key cfg w ci.arn = .ok (some k) ∧ k ≠ "") ∨
    (∃ e, selectCandidate cfg w (ci :: rest) acc = .error e) := by
  by_cases h1 : ci.domainName = subjectOf cfg
  case neg =>
    left
    constructor
    · simp [selectCandidate, h1]
    · intro he
      exact absurd he.1 h1
  case pos =>
  by_cases h2 : ci.importedAt = none
  case pos =>
    left
    constructor
    · simp [selectCandidate, h1, h2]
    · intro he
      exact absurd h2 he.2.1
  case neg =>
  by_cases h3 : isOlder acc ci = true
  case pos =>
    left
    constructor
    · simp [selectCandidate, h1, h2, h3]
    · intro _
      exact h3
  case neg =>
  have h3f : isOlder acc ci = false := Bool.eq_false_iff.mpr h3
  by_cases h4 : listSetEq ci.subjectAlternativeNames cfg.domains = true
  case neg =>
    left
    constructor
    · simp [selectCandidate, h1, h2, h3f, Bool.eq_false_iff.mpr h4]
    · intro he
      exact absurd he.2.2.1 h4
  case pos =>
  by_cases h5 : certStaging ci.issuer = cfg.staging
  case neg =>
    left
    constructor
    · simp [selectCandidate, h1, h2, h3f, h4, h5]
    · intro he
      exact absurd he.2.2.2.1 h5
  case pos =>
  cases hget : get_private_key cfg w ci.arn with
  | error e =>
    right; right
    exact ⟨e, by simp [selectCandidate, h1, h2, h3f, h4, h5, hget]⟩
  | ok k? =>
    by_cases h6 : pyTruthyOpt k? = true
    case pos =>
      obtain ⟨k, hk?, hk⟩ := pyTruthyOpt_true h6
      subst hk?
      right; left
      refine ⟨k, h3f, ⟨h1, h2, h4, h5, k, hget, hk⟩, ?_, rfl, hk⟩
      simp [selectCandidate, h1, h2, h3f, h4, h5, hget, h6]
    case neg =>
      left
      constructor
      · simp [selectCandidate, h1, h2, h3f, h4, h5, hget,
              Bool.eq_false_iff.mpr h6]
      · intro he
        obtain ⟨k, hgk, hk⟩ := he.2.2.2.2
        rw [hget] at hgk
        cases hgk
        exact absurd (show pyTruthyOpt (some k) = true by
          simp [pyTruthyOpt, hk]) h6

/-- The accumulator only moves to strictly newer candidates: a run that
ends without error ends with a winner at least as recent as any
accumulator it started from. -/
lemma select_mono (cfg : Config) (w : World) :
    ∀ (certs : List CertInfo) (acc r : Option (CertInfo × String))
      (l : CertInfo × String),
    selectCandidate cfg w certs acc = .ok r → acc = some l →
    ∃ p, r = some p ∧ tsOf l.1 ≤ tsOf p.1 := by
  intro certs
  induction certs with
  | nil =>
    intro acc r l h hacc
    simp [selectCandidate] at h
    exact ⟨l, by rw [← h, hacc], le_refl _⟩
  | cons ci rest ih =>
    intro acc r l h hacc
    rcases selectCandidate_step cfg w ci rest acc with
      ⟨heq, _⟩ | ⟨k, hold, _, heq, _, _⟩ | ⟨e, heq⟩
    · rw [heq] at h
      exact ih acc r l h hacc
    · rw [heq] at h
      obtain ⟨p, hp, hle⟩ := ih (some (ci, k)) r (ci, k) h rfl
      refine ⟨p, hp, le_trans ?_ hle⟩
      subst hacc
      simp [isOlder] at hold
      exact le_of_lt hold
    · rw [heq] at h
      exact absurd h (by simp)

/-- Every eligible certificate in the remaining list is dominated by the
final winner: if the run ends without error and an eligible certificate
occurs in the list, the run ends with some winner whose import timestamp
is at least that certificate's. -/
lemma select_dominates (cfg : Config) (w : World) :
    ∀ (certs : List CertInfo) (acc r : Option (CertInfo × String))
      (cj : CertInfo),
    selectCandidate cfg w certs acc = .ok r → cj ∈ certs →
    Eligible cfg w cj →
    ∃ p, r = some p ∧ tsOf cj ≤ tsOf p.1 := by
  intro certs
  induction certs with
  | nil =>
    intro acc r cj _ hmem _
    exact absurd hmem (List.not_mem_nil cj)
  | cons ci rest ih =>
    intro acc r cj h hmem hel
    rcases List.mem_cons.mp hmem with hcj | hcj
    · subst hcj
      rcases selectCandidate_step cfg w cj rest acc with
        ⟨heq, himp⟩ | ⟨k, _, _, heq, _, _⟩ | ⟨e, heq⟩
      · rw [heq] at h
        obtain ⟨p0, hacc, hle0⟩ := isOlder_true (himp hel)
        obtain ⟨p, hp, hle⟩ := select_mono cfg w rest acc r p0 h hacc
        exact ⟨p, hp, le_trans hle0 hle⟩
      · rw [heq] at h
        obtain ⟨p, hp, hle⟩ := select_mono cfg w rest _ r (cj, k) h rfl
        exact ⟨p, hp, hle⟩
      · rw [heq] at h
        exact absurd h (by simp)
    · rcases selectCandidate_step cfg w ci rest acc with
        ⟨heq, _⟩ | ⟨k, _, _, heq, _, _⟩ | ⟨e, heq⟩
      · rw [heq] at h
        exact ih acc r cj h hcj hel
      · rw [heq] at h
        exact ih _ r cj h hcj hel
      · rw [heq] at h
        exact absurd h (by simp)

/-- Soundness of the loop: an error-free run returns either its starting
accumulator or an eligible certificate of the list paired with its
retrieved, non-empty private key. -/
lemma select_sound (cfg : Config) (w : World) :
    ∀ (certs : List CertInfo) (acc r : Option (CertInfo × String)),
    selectCandidate cfg w certs acc = .ok r →
    r = acc ∨ ∃ ci k, r = some (ci, k) ∧ ci ∈ certs ∧ Eligible cfg w ci ∧
      get_private_key cfg w ci.arn = .ok (some k) ∧ k ≠ "" := by
  intro certs
  induction certs with
  | nil =>
    intro acc r h
    simp [selectCandidate] at h
    exact Or.inl h.symm
  | cons ci rest ih =>
    intro acc r h
    rcases selectCandidate_step cfg w ci rest acc with
      ⟨heq, _⟩ | ⟨k, _, hel, heq, hget, hk⟩ | ⟨e, heq⟩
    · rw [heq] at h
      rcases ih acc r h with hr | ⟨ci2, k2, hr, hm, he2, hg2, hk2⟩
      · exact Or.inl hr
      · exact Or.inr ⟨ci2, k2, hr, List.mem_cons_of_mem ci hm, he2, hg2, hk2⟩
    · rw [heq] at h
      rcases ih _ r h with hr | ⟨ci2, k2, hr, hm, he2, hg2, hk2⟩
      · exact Or.inr ⟨ci, k, hr, List.mem_cons_self ci rest, hel, hget, hk⟩
      · exact Or.inr ⟨ci2, k2, hr, List.mem_cons_of_mem ci hm, he2, hg2, hk2⟩
    · rw [heq] at h
      exact absurd h (by simp)

/-- Reduction of the handler once the locator answer is known: a located
certificate leaves only the threshold test. -/
lemma lambda_handler_ok_some (cfg : Config) (w : World) (c : Certificate)
    (h : find_latest_cert cfg w = .ok (some c)) :
    lambda_handler cfg w =
      if get_days_remaining c w.today ≤ 30 then run_executor cfg w
      else .ok (handlerOutput c, w) := by
  unfold lambda_handler
  rw [h]

/-- Reduction of the handler when the locator finds nothing. -/
lemma lambda_handler_ok_none (cfg : Config) (w : World)
    (h : find_latest_cert cfg w = .ok none) :
    lambda_handler cfg w = run_executor cfg w := by
  unfold lambda_handler
  rw [h]

/-- Reduction of the handler when the locator aborts with an error. -/
lemma lambda_handler_error (cfg : Config) (w : World) (e : PyErr)
    (h : find_latest_cert cfg w = .error e) :
    lambda_handler cfg w = .error e := by
  unfold lambda_handler
  rw [h]

/-! ## Claims -/

/-- C1: for every external store state the top-level routine follows the
three-state decision rule: locator finds nothing, run the renewal path
and return its result; located record has at most 30 days remaining, run
the renewal path and return its result; otherwise return the located
record unchanged with the stores untouched. -/
theorem lambda_handler_decision (cfg : Config) (w : World) :
    (find_latest_cert cfg w = .ok none →
      lambda_handler cfg w = run_executor cfg w) ∧
    (∀ c, find_latest_cert cfg w = .ok (some c) →
      get_days_remaining c w.today ≤ 30 →
      lambda_handler cfg w = run_executor cfg w) ∧
    (∀ c, find_latest_cert cfg w = .ok (some c) →
      30 < get_days_remaining c w.today →
      lambda_handler cfg w = .ok (handlerOutput c, w)) := by
  refine ⟨?_, ?_, ?_⟩
  · intro h
    exact lambda_handler_ok_none cfg w h
  · intro c h hle
    rw [lambda_handler_ok_some cfg w c h, if_pos hle]
  · intro c h hlt
    rw [lambda_handler_ok_some cfg w c h, if_neg (not_le.mpr hlt)]

/-- C1 witness: in `worldA` the located certificate has 95 days remaining
and the handler returns it with the world unchanged. -/
theorem lambda_handler_decision_witness :
    lambda_handler cfgA worldA = .ok (handlerOutput certRecA, worldA) :=
  (lambda_handler_decision cfgA worldA).2.2 certRecA rfl (by decide)

/-- C8: with a located certificate holding more than 30 days remaining,
the handler performs no store write (the world is unchanged) and an
immediate second invocation returns the identical record, again with no
renewal side effect. -/
theorem lambda_handler_idempotent (cfg : Config) (w : World)
    (c : Certificate) (hfind : find_latest_cert cfg w = .ok (some c))
    (hdays : 30 < get_days_remaining c w.today) :
    lambda_handler cfg w = .ok (handlerOutput c, w) ∧
    ∀ o w2, lambda_handler cfg w = .ok (o, w2) →
      w2 = w ∧ lambda_handler cfg w2 = .ok (o, w2) := by
  have h1 : lambda_handler cfg w = .ok (handlerOutput c, w) := by
    rw [lambda_handler_ok_some cfg w c hfind, if_neg (not_le.mpr hdays)]
  refine ⟨h1, ?_⟩
  intro o w2 h2
  rw [h1] at h2
  cases h2
  exact ⟨rfl, h1⟩

/-- C8 witness: the double-invocation property at `worldA`. -/
theorem lambda_handler_idempotent_witness :
    lambda_handler cfgA worldA = .ok (handlerOutput certRecA, worldA) ∧
    ∀ o w2, lambda_handler cfgA worldA = .ok (o, w2) →
      w2 = worldA ∧ lambda_handler cfgA w2 = .ok (o, w2) :=
  lambda_handler_idempotent cfgA worldA certRecA rfl (by decide)

/-- C9: the module never binds the name `certbot`, so `provision_cert`
raises NameError on every input, and both renewal states of the handler
abort with that NameError instead of completing. -/
theorem provision_cert_name_error (cfg : Config) (w : World) :
    "certbot" ∉ moduleTopLevelNames ∧
    provision_cert cfg w = .error (.nameError "certbot") ∧
    run_executor cfg w = .error (.nameError "certbot") ∧
    (find_latest_cert cfg w = .ok none →
      lambda_handler cfg w = .error (.nameError "certbot")) ∧
    (∀ c, find_latest_cert cfg w = .ok (some c) →
      get_days_remaining c w.today ≤ 30 →
      lambda_handler cfg w = .error (.nameError "certbot")) := by
  have hmem : "certbot" ∉ moduleTopLevelNames := by decide
  have hp : provision_cert cfg w = .error (.nameError "certbot") := by
    simp [provision_cert, hmem]
  have hr : run_executor cfg w = .error (.nameError "certbot") := by
    unfold run_executor
    rw [hp]
  refine ⟨hmem, hp, hr, ?_, ?_⟩
  · intro h
    rw [lambda_handler_ok_none cfg w h, hr]
  · intro c h hle
    rw [lambda_handler_ok_some cfg w c h, if_pos hle, hr]

/-- C9 witness: with an empty inventory the handler reaches the renewal
path and aborts with the NameError. -/
theorem provision_cert_name_error_witness :
    lambda_handler cfgA worldEmpty = .error (.nameError "certbot") :=
  (provision_cert_name_error cfgA worldEmpty).2.2.2.1 rfl

/-- C6: expiry evaluation is the whole-day calendar difference of the
`NotAfter` date and the current date, ignoring the time of day; 31 days
out stays above the threshold, 30 days out and past dates fall at or
below it and send the handler down the renewal path. -/
theorem get_days_remaining_calendar (c : Certificate) (today : PyDate) :
    (∀ c2 : Certificate, c2.NotAfter.year = c.NotAfter.year →
      c2.NotAfter.month = c.NotAfter.month →
      c2.NotAfter.day = c.NotAfter.day →
      get_days_remaining c2 today = get_days_remaining c today) ∧
    get_days_remaining c today =
      (dateOrd (dateOf c.NotAfter) : Int) - (dateOrd today : Int) ∧
    (dateOrd (dateOf c.NotAfter) = dateOrd today + 31 →
      30 < get_days_remaining c today) ∧
    (dateOrd (dateOf c.NotAfter) = dateOrd today + 30 →
      get_days_remaining c today ≤ 30) ∧
    (dateOrd (dateOf c.NotAfter) + 1 = dateOrd today →
      get_days_remaining c today < 0 ∧ get_days_remaining c today ≤ 30) ∧
    (∀ cfg w, find_latest_cert cfg w = .ok (some c) → w.today = today →
      get_days_remaining c today ≤ 30 →
      lambda_handler cfg w = run_executor cfg w) := by
  refine ⟨?_, rfl, ?_, ?_, ?_, ?_⟩
  · intro c2 hy hm hd
    simp [get_days_remaining, dateOf, hy, hm, hd]
  · intro h
    simp only [get_days_remaining]
    rw [h]
    push_cast
    omega
  · intro h
    simp only [get_days_remaining]
    rw [h]
    push_cast
    omega
  · intro h
    simp only [get_days_remaining]
    rw [← h]
    push_cast
    constructor <;> omega
  · intro cfg w hfind ht hle
    rw [lambda_handler_ok_some cfg w c hfind, ht, if_pos hle]

/-- C6 witness: with the current date fixed, expiry 31 days out exceeds
the threshold while 30 days out and one day past do not. -/
theorem get_days_remaining_calendar_witness :
    30 < get_days_remaining certRec31 dateT ∧
    get_days_remaining certRec30 dateT ≤ 30 ∧
    get_days_remaining certRecPast dateT < 0 ∧
    get_days_remaining certRecPast dateT ≤ 30 :=
  ⟨(get_days_remaining_calendar certRec31 dateT).2.2.1 (by decide),
   (get_days_remaining_calendar certRec30 dateT).2.2.2.1 (by decide),
   ((get_days_remaining_calendar certRecPast dateT).2.2.2.2.1 (by decide)).1,
   ((get_days_remaining_calendar certRecPast dateT).2.2.2.2.1 (by decide)).2⟩

/-- C2: whenever the inventory holds at least one eligible candidate and
the candidate loop completes without a store error, it ends on an
eligible candidate whose import timestamp is at least that of every other
eligible candidate, and the record `find_latest_cert` then returns is
built from that candidate — despite the recency comparison being
interleaved before the remaining filters. -/
theorem find_latest_cert_selects_max (cfg : Config) (w : World)
    (r : Option (CertInfo × String))
    (hrun : selectCandidate cfg w w.issuedCerts none = .ok r)
    (hex : ∃ cj, cj ∈ w.issuedCerts ∧ Eligible cfg w cj) :
    ∃ ci k, r = some (ci, k) ∧ ci ∈ w.issuedCerts ∧ Eligible cfg w ci ∧
      (∀ cj, cj ∈ w.issuedCerts → Eligible cfg w cj → tsOf cj ≤ tsOf ci) ∧
      ∀ c, find_latest_cert cfg w = .ok (some c) →
        c.CertificateArn = ci.arn ∧ c.NotAfter = ci.notAfter ∧
        c.PrivateKey = k := by
  obtain ⟨cj, hmem, helig⟩ := hex
  obtain ⟨p, hp, _⟩ :=
    select_dominates cfg w w.issuedCerts none r cj hrun hmem helig
  rcases select_sound cfg w w.issuedCerts none r hrun with
    hr | ⟨ci, k, hr, hm, he, hg, hk⟩
  · rw [hr] at hp
    exact Option.noConfusion hp
  · subst hr
    refine ⟨ci, k, rfl, hm, he, ?_, ?_⟩
    · intro cj2 hm2 he2
      obtain ⟨p2, hp2, hle2⟩ :=
        select_dominates cfg w w.issuedCerts none _ cj2 hrun hm2 he2
      cases hp2
      exact hle2
    · intro c hfind
      unfold find_latest_cert at hfind
      rw [hrun] at hfind
      simp at hfind
      cases hacm : acm_get_certificate w ci.arn with
      | error e =>
        rw [hacm] at hfind
        simp at hfind
      | ok q =>
        obtain ⟨cert, chain⟩ := q
        rw [hacm] at hfind
        simp at hfind
        subst hfind
        exact ⟨rfl, rfl, rfl⟩

/-- C2 witness: in `worldB` the two eligible candidates carry timestamps
100 and 200 and the loop ends on the one with 200, even though a
mismatched-domain certificate with timestamp 900 is also stored. -/
theorem find_latest_cert_selects_max_witness :
    ∃ ci k, (some (certInfoA2, "KEY2") : Option (CertInfo × String)) = some (ci, k) ∧
      ci ∈ worldB.issuedCerts ∧ Eligible cfgA worldB ci ∧
      (∀ cj, cj ∈ worldB.issuedCerts → Eligible cfgA worldB cj →
        tsOf cj ≤ tsOf ci) ∧
      ∀ c, find_latest_cert cfgA worldB = .ok (some c) →
        c.CertificateArn = ci.arn ∧ c.NotAfter = ci.notAfter ∧
        c.PrivateKey = k :=
  find_latest_cert_selects_max cfgA worldB (some (certInfoA2, "KEY2")) rfl
    ⟨certInfoA1, by decide, rfl, by decide, rfl, rfl, "KEY1", rfl, by decide⟩

/-- C3: a stored certificate whose alternate-name set is not exactly the
managed domain set is never the candidate the loop ends on, regardless of
its expiry, issuer, or import timestamp. -/
theorem find_latest_cert_rejects_wrong_domains (cfg : Config) (w : World)
    (ci : CertInfo) (k : String) (hmem : ci ∈ w.issuedCerts)
    (hsans : listSetEq ci.subjectAlternativeNames cfg.domains = false) :
    selectCandidate cfg w w.issuedCerts none ≠ .ok (some (ci, k)) := by
  intro h
  rcases select_sound cfg w w.issuedCerts none _ h with
    hr | ⟨ci2, k2, hr, _, he2, _, _⟩
  · exact Option.noConfusion hr
  · cases hr
    have hT := he2.2.2.1
    rw [hsans] at hT
    exact Bool.noConfusion hT

/-- C3 witness: the superset-named certificate of `worldB`, although
imported, keyed, unexpired and newest, is not selected. -/
theorem find_latest_cert_rejects_wrong_domains_witness :
    selectCandidate cfgA worldB worldB.issuedCerts none ≠
      .ok (some (certInfoBad, "KEYBAD")) :=
  find_latest_cert_rejects_wrong_domains cfgA worldB certInfoBad "KEYBAD"
    (by decide) rfl

/-- C4: a stored certificate with no private key retrievable under its
derived parameter name is never the candidate the loop ends on,
regardless of any other attribute. -/
theorem find_latest_cert_requires_key (cfg : Config) (w : World)
    (ci : CertInfo) (k : String) (hmem : ci ∈ w.issuedCerts)
    (hkey : get_private_key cfg w ci.arn = .ok none) :
    selectCandidate cfg w w.issuedCerts none ≠ .ok (some (ci, k)) := by
  intro h
  rcases select_sound cfg w w.issuedCerts none _ h with
    hr | ⟨ci2, k2, hr, _, _, hg2, _⟩
  · exact Option.noConfusion hr
  · cases hr
    rw [hkey] at hg2
    simp at hg2

/-- C4 witness: in `worldNoKey` the only stored certificate has no SSM
parameter and is not selected. -/
theorem find_latest_cert_requires_key_witness :
    selectCandidate cfgA worldNoKey worldNoKey.issuedCerts none ≠
      .ok (some (certInfoA1, "KEY1")) :=
  find_latest_cert_requires_key cfgA worldNoKey certInfoA1 "KEY1"
    (by decide) rfl

/-- C5: the candidate the loop ends on always satisfies the staging
biconditional (issuer contains the case-insensitive marker exactly when
staging mode is on), and any stored certificate violating it is never
selected, in either direction of the mismatch. -/
theorem find_latest_cert_staging_filter (cfg : Config) (w : World) :
    (∀ ci k, selectCandidate cfg w w.issuedCerts none = .ok (some (ci, k)) →
      certStaging ci.issuer = cfg.staging) ∧
    (∀ ci k, ci ∈ w.issuedCerts → certStaging ci.issuer ≠ cfg.staging →
      selectCandidate cfg w w.issuedCerts none ≠ .ok (some (ci, k))) := by
  constructor
  · intro ci k h
    rcases select_sound cfg w w.issuedCerts none _ h with
      hr | ⟨ci2, k2, hr, _, he2, _, _⟩
    · exact Option.noConfusion hr
    · cases hr
      exact he2.2.2.2.1
  · intro ci k _ hst h
    rcases select_sound cfg w w.issuedCerts none _ h with
      hr | ⟨ci2, k2, hr, _, he2, _, _⟩
    · exact Option.noConfusion hr
    · cases hr
      exact hst he2.2.2.2.1

/-- C5 witness: in staging mode the loop ends on the marker-bearing
certificate, and the production-issuer certificate, although otherwise
eligible and newer, is excluded. -/
theorem find_latest_cert_staging_filter_witness :
    certStaging certInfoFake.issuer = cfgS.staging ∧
    selectCandidate cfgS worldS worldS.issuedCerts none ≠
      .ok (some (certInfoProd, "KEYP")) :=
  ⟨(find_latest_cert_staging_filter cfgS worldS).1 certInfoFake "KEYF" rfl,
   (find_latest_cert_staging_filter cfgS worldS).2 certInfoProd "KEYP"
     (by decide) (by decide)⟩

/-- C7: a ParameterNotFound from the secret store is recovered locally
(`get_private_key` answers `None` and such a candidate is merely
skipped), a successful lookup returns the stored value, while every other
secret-store error becomes an unhandled exception that propagates through
the candidate loop, the locator and the handler, aborting the invocation
with no retry. -/
theorem get_private_key_error_handling (cfg : Config) (w : World)
    (arn : String) :
    (ssm_get_parameter w (get_ssm_param_name cfg arn) =
        .error .parameterNotFound →
      get_private_key cfg w arn = .ok none) ∧
    (∀ v, ssm_get_parameter w (get_ssm_param_name cfg arn) = .ok v →
      get_private_key cfg w arn = .ok (some v)) ∧
    (∀ s, ssm_get_parameter w (get_ssm_param_name cfg arn) =
        .error (.serviceError s) →
      get_private_key cfg w arn = .error (.ssmFailure s)) ∧
    (∀ ci k, ci ∈ w.issuedCerts → get_private_key cfg w ci.arn = .ok none →
      selectCandidate cfg w w.issuedCerts none ≠ .ok (some (ci, k))) ∧
    (∀ e, selectCandidate cfg w w.issuedCerts none = .error e →
      find_latest_cert cfg w = .error e) ∧
    (∀ e, find_latest_cert cfg w = .error e →
      lambda_handler cfg w = .error e) := by
  refine ⟨?_, ?_, ?_, ?_, ?_, ?_⟩
  · intro h
    unfold get_private_key
    rw [h]
  · intro v h
    unfold get_private_key
    rw [h]
  · intro s h
    unfold get_private_key
    rw [h]
  · intro ci k _ hkey h
    rcases select_sound cfg w w.issuedCerts none _ h with
      hr | ⟨ci2, k2, hr, _, _, hg2, _⟩
    · exact Option.noConfusion hr
    · cases hr
      rw [hkey] at hg2
      simp at hg2
  · intro e h
    unfold find_latest_cert
    rw [h]
  · intro e h
    exact lambda_handler_error cfg w e h

/-- C7 witness: in `worldErr` the injected service error surfaces through
`get_private_key`, the locator and the handler; in `worldNoKey` the
missing parameter is recovered to `None`. -/
theorem get_private_key_error_handling_witness :
    get_private_key cfgA worldErr certInfoA1.arn =
      .error (.ssmFailure "/lets-encrypt/a1/PrivateKey") ∧
    find_latest_cert cfgA worldErr =
      .error (.ssmFailure "/lets-encrypt/a1/PrivateKey") ∧
    lambda_handler cfgA worldErr =
      .error (.ssmFailure "/lets-encrypt/a1/PrivateKey") ∧
    get_private_key cfgA worldNoKey certInfoA1.arn = .ok none :=
  ⟨(get_private_key_error_handling cfgA worldErr certInfoA1.arn).2.2.1
      "/lets-encrypt/a1/PrivateKey" rfl,
   (get_private_key_error_handling cfgA worldErr certInfoA1.arn).2.2.2.2.1
      (.ssmFailure "/lets-encrypt/a1/PrivateKey") rfl,
   (get_private_key_error_handling cfgA worldErr certInfoA1.arn).2.2.2.2.2
      (.ssmFailure "/lets-encrypt/a1/PrivateKey") rfl,
   (get_private_key_error_handling cfgA worldNoKey certInfoA1.arn).1 rfl⟩

/-- C10: an empty-string private key stored in SSM is treated exactly
like an absent one: the truthiness test does not distinguish them, and a
candidate whose retrieved key is the empty string is never the candidate
the loop ends on. -/
theorem empty_key_treated_as_missing (cfg : Config) (w : World) :
    pyTruthyOpt (some "") = pyTruthyOpt none ∧
    (∀ ci k, ci ∈ w.issuedCerts →
      get_private_key cfg w ci.arn = .ok (some "") →
      selectCandidate cfg w w.issuedCerts none ≠ .ok (some (ci, k))) := by
  constructor
  · rfl
  · intro ci k _ hkey h
    rcases select_sound cfg w w.issuedCerts none _ h with
      hr | ⟨ci2, k2, hr, _, _, hg2, hk2⟩
    · exact Option.noConfusion hr
    · cases hr
      rw [hkey] at hg2
      simp only [Except.ok.injEq, Option.some.injEq] at hg2
      exact hk2 hg2.symm

/-- C10 witness: in `worldEmptyKey` the stored key is the empty string
and the certificate is not selected. -/
theorem empty_key_treated_as_missing_witness :
    pyTruthyOpt (some "") = pyTruthyOpt none ∧
    selectCandidate cfgA worldEmptyKey worldEmptyKey.issuedCerts none ≠
      .ok (some (certInfoA1, "KEY1")) :=
  ⟨(empty_key_treated_as_missing cfgA worldEmptyKey).1,
   (empty_key_treated_as_missing cfgA worldEmptyKey).2 certInfoA1 "KEY1"
     (by decide) rfl⟩
